import Mathlib

/-!
Verification development for the terminator-dancer transaction runtime.

The definitions below are a shallow embedding of the Rust sources:
`src/system_program.rs`, `src/integrated_runtime.rs`, `src/solana_format.rs`
and `src/real_bpf_vm.rs`.  Machine bytes are `Nat` values below 256, `u64`
values are `Nat` with explicit `% 2^64` wherever the Rust code can wrap,
and fallible functions return `Except TerminatorError` or `Option`.

The crate module `types` (struct `Account`, `ExecutionContext`,
`TransactionResult`) is not present in the sources; those definitions are
modelled from the specification, as marked on each one.
-/

namespace TerminatorDancer

/-- A public key: 32 raw bytes (`SolanaPubkey` / `types::Pubkey` hold `[u8; 32]`). -/
abbrev Pubkey := List Nat

/-- `u64` modulus for the places where Rust `u64` arithmetic can wrap. -/
def U64MOD : Nat := 2 ^ 64

/-- System program id: 32 zero bytes (`SYSTEM_PROGRAM_ID` in `system_program.rs`). -/
def SYSTEM_PROGRAM_ID : Pubkey := List.replicate 32 0

/-- Modelled from the spec: the crate's `types::Account` record
`{ lamports: u64; data: byte sequence; owner: Pubkey; executable: bool; rent_epoch: u64 }`
(the module `types` is missing from the sources). -/
structure Account where
  lamports : Nat
  data : List Nat
  owner : Pubkey
  executable : Bool
  rent_epoch : Nat
deriving DecidableEq, Repr, Inhabited

/-- Modelled from the spec: `Account::new(lamports, data, owner)` builds a
non-executable account (used by the runtime for implicitly created accounts). -/
def Account.new (lamports : Nat) (data : List Nat) (owner : Pubkey) : Account :=
  { lamports := lamports, data := data, owner := owner, executable := false, rent_epoch := 0 }

/-- Modelled from the spec: `Account::new_executable(lamports, data, owner)`,
used for the built-in System Program account. -/
def Account.new_executable (lamports : Nat) (data : List Nat) (owner : Pubkey) : Account :=
  { lamports := lamports, data := data, owner := owner, executable := true, rent_epoch := 0 }

/-- Modelled from the spec: the per-transaction `types::ExecutionContext`
`{ compute_units_remaining: u64; log_messages: strings }`. -/
structure ExecutionContext where
  compute_units_remaining : Nat
  log_messages : List String
deriving DecidableEq, Repr

def ExecutionContext.new (budget : Nat) : ExecutionContext :=
  { compute_units_remaining := budget, log_messages := [] }

/-- Modelled from the spec: `consume_compute_units(n) → bool` returns `false`
when the charge would underflow and leaves the counter unchanged. -/
def ExecutionContext.consume_compute_units (ctx : ExecutionContext) (n : Nat) :
    Bool × ExecutionContext :=
  if ctx.compute_units_remaining < n then (false, ctx)
  else (true, { ctx with compute_units_remaining := ctx.compute_units_remaining - n })

/-- `context.log(msg)` appends one message.  The Rust messages are `format!`
strings over runtime values; their exact text is abstracted to fixed strings,
no theorem below depends on log contents. -/
def ExecutionContext.log (ctx : ExecutionContext) (msg : String) : ExecutionContext :=
  { ctx with log_messages := ctx.log_messages ++ [msg] }

/-- The crate error enum from `lib.rs` (variants constructed by the embedded code). -/
inductive TerminatorError where
  | TransactionExecutionFailed (msg : String)
  | AccountNotFound (msg : String)
  | InsufficientFunds
  | InvalidSignature
  | ProgramError (msg : String)
  | SerializationError (msg : String)
  | ConformanceTestFailed (msg : String)
  | BpfVmError (msg : String)
  | FiredancerError (msg : String)
  | WasmError (msg : String)
deriving DecidableEq, Repr

/-- Modelled from the spec: the observable `types::TransactionResult`
`{ success; compute_units_consumed; logs; error }`. -/
structure TransactionResult where
  success : Bool
  compute_units_consumed : Nat
  logs : List String
  error : Option TerminatorError
deriving DecidableEq, Repr

/-! ## System Program (`src/system_program.rs`) -/

/-- `SystemInstruction` enum; seeds are kept as raw borsh string bytes. -/
inductive SystemInstruction where
  | CreateAccount (lamports space : Nat) (owner : Pubkey)
  | Assign (owner : Pubkey)
  | Transfer (lamports : Nat)
  | CreateAccountWithSeed (base : Pubkey) (seed : List Nat) (lamports space : Nat) (owner : Pubkey)
  | Allocate (space : Nat)
  | AllocateWithSeed (base : Pubkey) (seed : List Nat) (space : Nat) (owner : Pubkey)
  | AssignWithSeed (base : Pubkey) (seed : List Nat) (owner : Pubkey)
  | TransferWithSeed (lamports : Nat) (from_seed : List Nat) (from_owner : Pubkey)
deriving DecidableEq, Repr

namespace SystemProgram

/-- `SystemProgram::create_account`.  Note that the new account's balance is
assigned (`to_account.lamports = lamports`), not incremented. -/
def create_account (_account_keys : List Pubkey) (account_infos : List Account)
    (lamports space : Nat) (owner : Pubkey) (context : ExecutionContext) :
    Except TerminatorError (List Account × ExecutionContext) :=
  match account_infos with
  | from_account :: to_account :: rest =>
    let context := context.log "Creating account"
    if from_account.lamports < lamports then
      .error .InsufficientFunds
    else
      let from_account := { from_account with lamports := from_account.lamports - lamports }
      let to_account := { to_account with
        lamports := lamports
        data := List.replicate space 0
        owner := owner
        executable := false
        rent_epoch := 0 }
      let context := (context.consume_compute_units 1000).2
      .ok (from_account :: to_account :: rest, context)
  | _ => .error (.TransactionExecutionFailed "CreateAccount requires 2 accounts")

/-- `SystemProgram::assign_account`. -/
def assign_account (account_infos : List Account) (owner : Pubkey)
    (context : ExecutionContext) :
    Except TerminatorError (List Account × ExecutionContext) :=
  match account_infos with
  | account :: rest =>
    let context := context.log "Assigning account to owner"
    if account.owner ≠ SYSTEM_PROGRAM_ID then
      .error (.TransactionExecutionFailed "Only system-owned accounts can be assigned")
    else
      let account := { account with owner := owner }
      let context := (context.consume_compute_units 500).2
      .ok (account :: rest, context)
  | [] => .error (.TransactionExecutionFailed "Assign requires 1 account")

/-- `SystemProgram::transfer`.  `to_account.lamports += lamports` is `u64`
addition and is modelled with an explicit wrap. -/
def transfer (account_infos : List Account) (lamports : Nat)
    (context : ExecutionContext) :
    Except TerminatorError (List Account × ExecutionContext) :=
  match account_infos with
  | from_account :: to_account :: rest =>
    let context := context.log "Transferring lamports"
    if from_account.lamports < lamports then
      .error .InsufficientFunds
    else
      let from_account := { from_account with lamports := from_account.lamports - lamports }
      let to_account := { to_account with lamports := (to_account.lamports + lamports) % U64MOD }
      let context := (context.consume_compute_units 200).2
      .ok (from_account :: to_account :: rest, context)
  | _ => .error (.TransactionExecutionFailed "Transfer requires 2 accounts")

/-- `SystemProgram::allocate`.  The compute charge is `space / 100`
("Proportional to space"); there is no size limit and no `max` with 200. -/
def allocate (account_infos : List Account) (space : Nat)
    (context : ExecutionContext) :
    Except TerminatorError (List Account × ExecutionContext) :=
  match account_infos with
  | account :: rest =>
    let context := context.log "Allocating bytes"
    if account.owner ≠ SYSTEM_PROGRAM_ID then
      .error (.TransactionExecutionFailed "Only system-owned accounts can be allocated")
    else
      let account := { account with data := List.replicate space 0 }
      let context := (context.consume_compute_units (space / 100)).2
      .ok (account :: rest, context)
  | [] => .error (.TransactionExecutionFailed "Allocate requires 1 account")

/-- `SystemProgram::create_account_with_seed` delegates to `create_account`
with an empty key slice. -/
def create_account_with_seed (_account_keys : List Pubkey) (account_infos : List Account)
    (_base : Pubkey) (_seed : List Nat) (lamports space : Nat) (owner : Pubkey)
    (context : ExecutionContext) :
    Except TerminatorError (List Account × ExecutionContext) :=
  create_account [] account_infos lamports space owner context

/-- `SystemProgram::allocate_with_seed` delegates to `allocate`. -/
def allocate_with_seed (_account_keys : List Pubkey) (account_infos : List Account)
    (_base : Pubkey) (_seed : List Nat) (space : Nat) (_owner : Pubkey)
    (context : ExecutionContext) :
    Except TerminatorError (List Account × ExecutionContext) :=
  allocate account_infos space context

/-- `SystemProgram::assign_with_seed` delegates to `assign_account`. -/
def assign_with_seed (_account_keys : List Pubkey) (account_infos : List Account)
    (_base : Pubkey) (_seed : List Nat) (owner : Pubkey)
    (context : ExecutionContext) :
    Except TerminatorError (List Account × ExecutionContext) :=
  assign_account account_infos owner context

/-- `SystemProgram::transfer_with_seed` delegates to `transfer`. -/
def transfer_with_seed (_account_keys : List Pubkey) (account_infos : List Account)
    (lamports : Nat) (_from_seed : List Nat) (_from_owner : Pubkey)
    (context : ExecutionContext) :
    Except TerminatorError (List Account × ExecutionContext) :=
  transfer account_infos lamports context

end SystemProgram

/-- Sum of the `lamports` fields of an instruction's account slots. -/
def sumLamports (accounts : List Account) : Nat :=
  (accounts.map Account.lamports).sum

/-! ## Byte readers shared by the borsh and bincode decoders -/

/-- Take exactly `n` bytes, failing on truncated input. -/
def readBytesN (n : Nat) (data : List Nat) : Option (List Nat × List Nat) :=
  if n ≤ data.length then some (data.take n, data.drop n) else none

/-- Read one byte. -/
def readU8 (data : List Nat) : Option (Nat × List Nat) :=
  match data with
  | b :: rest => some (b, rest)
  | [] => none

/-- Value of a little-endian byte list. -/
def leValue (bytes : List Nat) : Nat :=
  bytes.foldr (fun b acc => b + 256 * acc) 0

/-- Read a little-endian `u32`. -/
def readU32 (data : List Nat) : Option (Nat × List Nat) :=
  (readBytesN 4 data).map fun p => (leValue p.1, p.2)

/-- Read a little-endian `u64`. -/
def readU64 (data : List Nat) : Option (Nat × List Nat) :=
  (readBytesN 8 data).map fun p => (leValue p.1, p.2)

/-- The eight little-endian bytes of `v` (`u64::to_le_bytes`). -/
def u64LEBytesAux : Nat → Nat → List Nat
  | 0, _ => []
  | n + 1, v => v % 256 :: u64LEBytesAux n (v / 256)

def u64LEBytes (v : Nat) : List Nat := u64LEBytesAux 8 v

/-- Borsh string: little-endian `u32` length then that many raw bytes.
The UTF-8 validity check of `String` deserialization is not modelled; no
claim exercises a seeded instruction's payload. -/
def readBorshString (data : List Nat) : Option (List Nat × List Nat) := do
  let (len, rest) ← readU32 data
  readBytesN len rest

/-- Borsh decoding of `SystemInstruction` (`try_from_slice`): a one-byte
variant tag in declaration order, positional fields, and the requirement
that the whole slice is consumed. -/
def decodeSystemInstruction (data : List Nat) : Option SystemInstruction := do
  let (tag, rest) ← readU8 data
  match tag with
  | 0 => do
    let (lamports, r) ← readU64 rest
    let (space, r) ← readU64 r
    let (owner, r) ← readBytesN 32 r
    if r = [] then some (.CreateAccount lamports space owner) else none
  | 1 => do
    let (owner, r) ← readBytesN 32 rest
    if r = [] then some (.Assign owner) else none
  | 2 => do
    let (lamports, r) ← readU64 rest
    if r = [] then some (.Transfer lamports) else none
  | 3 => do
    let (base, r) ← readBytesN 32 rest
    let (seed, r) ← readBorshString r
    let (lamports, r) ← readU64 r
    let (space, r) ← readU64 r
    let (owner, r) ← readBytesN 32 r
    if r = [] then some (.CreateAccountWithSeed base seed lamports space owner) else none
  | 4 => do
    let (space, r) ← readU64 rest
    if r = [] then some (.Allocate space) else none
  | 5 => do
    let (base, r) ← readBytesN 32 rest
    let (seed, r) ← readBorshString r
    let (space, r) ← readU64 r
    let (owner, r) ← readBytesN 32 r
    if r = [] then some (.AllocateWithSeed base seed space owner) else none
  | 6 => do
    let (base, r) ← readBytesN 32 rest
    let (seed, r) ← readBorshString r
    let (owner, r) ← readBytesN 32 r
    if r = [] then some (.AssignWithSeed base seed owner) else none
  | 7 => do
    let (lamports, r) ← readU64 rest
    let (seed, r) ← readBorshString r
    let (owner, r) ← readBytesN 32 r
    if r = [] then some (.TransferWithSeed lamports seed owner) else none
  | _ => none

/-- `SystemProgram::process_instruction`: decode, log, dispatch. -/
def SystemProgram.process_instruction (instruction_data : List Nat)
    (account_keys : List Pubkey) (account_infos : List Account)
    (context : ExecutionContext) :
    Except TerminatorError (List Account × ExecutionContext) :=
  match decodeSystemInstruction instruction_data with
  | none => .error (.SerializationError "Invalid system instruction")
  | some instruction =>
    let context := context.log "Processing system instruction"
    match instruction with
    | .CreateAccount lamports space owner =>
      SystemProgram.create_account account_keys account_infos lamports space owner context
    | .Assign owner =>
      SystemProgram.assign_account account_infos owner context
    | .Transfer lamports =>
      SystemProgram.transfer account_infos lamports context
    | .CreateAccountWithSeed base seed lamports space owner =>
      SystemProgram.create_account_with_seed account_keys account_infos base seed lamports space owner context
    | .Allocate space =>
      SystemProgram.allocate account_infos space context
    | .AllocateWithSeed base seed space owner =>
      SystemProgram.allocate_with_seed account_keys account_infos base seed space owner context
    | .AssignWithSeed base seed owner =>
      SystemProgram.assign_with_seed account_keys account_infos base seed owner context
    | .TransferWithSeed lamports seed owner =>
      SystemProgram.transfer_with_seed account_keys account_infos lamports seed owner context

/-! ## Transaction structures (`src/solana_format.rs`) -/

structure CompiledInstruction where
  program_id_index : Nat
  accounts : List Nat
  data : List Nat
deriving DecidableEq, Repr

structure MessageHeader where
  num_required_signatures : Nat
  num_readonly_signed_accounts : Nat
  num_readonly_unsigned_accounts : Nat
deriving DecidableEq, Repr

structure SolanaMessage where
  header : MessageHeader
  account_keys : List Pubkey
  recent_blockhash : List Nat
  instructions : List CompiledInstruction
deriving DecidableEq, Repr

structure SolanaTransaction where
  signatures : List (List Nat)
  message : SolanaMessage
deriving DecidableEq, Repr

/-- `SolanaTransactionParser::create_transfer_transaction`: one Transfer
instruction, account keys `[from, to, system]`, program id at index 2. -/
def create_transfer_transaction (from_ to_ : Pubkey) (lamports : Nat)
    (recent_blockhash : List Nat) : SolanaTransaction :=
  let instruction_data := 2 :: u64LEBytes lamports
  let instruction : CompiledInstruction :=
    { program_id_index := 2, accounts := [0, 1], data := instruction_data }
  let message : SolanaMessage :=
    { header :=
        { num_required_signatures := 1
          num_readonly_signed_accounts := 0
          num_readonly_unsigned_accounts := 1 }
      account_keys := [from_, to_, SYSTEM_PROGRAM_ID]
      recent_blockhash := recent_blockhash
      instructions := [instruction] }
  { signatures := [List.replicate 64 0], message := message }

/-! ## BPF VM (`src/real_bpf_vm.rs`) and account store -/

/-- The loaded-programs cache of `RealBpfVm`: bytecode keyed by program id. -/
def ProgramCache := Pubkey → Option (List Nat)

/-- `RealBpfVm::load_program`: requires the 4-byte ELF magic prefix. -/
def RealBpfVm.load_program (programs : ProgramCache) (program_id : Pubkey)
    (bytecode : List Nat) : Except TerminatorError ProgramCache :=
  if bytecode.length < 4 ∨ bytecode.take 4 ≠ [0x7f, 0x45, 0x4c, 0x46] then
    .error (.ProgramError "Invalid ELF format")
  else
    .ok (fun k => if k = program_id then some bytecode else programs k)

/-- `RealBpfVm::execute_program`: a deterministic placeholder that charges
`instruction_data.len() * 10` and mutates nothing. -/
def RealBpfVm.execute_program (programs : ProgramCache) (program_id : Pubkey)
    (instruction_data : List Nat) (_accounts : List Account) :
    Except TerminatorError Nat :=
  match programs program_id with
  | none => .error (.ProgramError "Program not loaded")
  | some _ => .ok (instruction_data.length * 10)

/-- `IntegratedRuntime::create_simple_bpf_program`: the embedded minimal ELF. -/
def create_simple_bpf_program : List Nat :=
  [0x7f, 0x45, 0x4c, 0x46,
   0x02, 0x01, 0x01, 0x00,
   0x00, 0x00, 0x00, 0x00, 0x00, 0x00, 0x00, 0x00,
   0x01, 0x00, 0xf7, 0x00,
   0x01, 0x00, 0x00, 0x00,
   0x00, 0x00, 0x00, 0x00, 0x00, 0x00, 0x00, 0x00,
   0x40, 0x00, 0x00, 0x00, 0x00, 0x00, 0x00, 0x00,
   0x00, 0x00, 0x00, 0x00, 0x00, 0x00, 0x00, 0x00,
   0x00, 0x00, 0x00, 0x00,
   0x40, 0x00, 0x38, 0x00,
   0x00, 0x00, 0x40, 0x00,
   0x00, 0x00, 0x00, 0x00,
   0x95, 0x00, 0x00, 0x00, 0x00, 0x00, 0x00, 0x00]

/-- The runtime's in-memory account database (`HashMap<Pubkey, Account>`). -/
def Store := Pubkey → Option Account

def Store.empty : Store := fun _ => none

def Store.insert (s : Store) (k : Pubkey) (a : Account) : Store :=
  fun k' => if k' = k then some a else s k'

def Store.contains (s : Store) (k : Pubkey) : Bool := (s k).isSome

/-! ## Integrated runtime (`src/integrated_runtime.rs`) -/

structure IntegratedRuntime where
  accounts : Store
  bpf_programs : ProgramCache
  compute_budget : Nat
  max_call_depth : Nat

/-- `IntegratedRuntime::initialize_default_accounts`. -/
def initialize_default_accounts (accounts : Store) : Store :=
  let accounts := accounts.insert (List.replicate 32 0)
    (Account.new_executable 1 [] SYSTEM_PROGRAM_ID)
  accounts.insert (List.replicate 32 1)
    (Account.new 10000000000 [] SYSTEM_PROGRAM_ID)

/-- `IntegratedRuntime::new` (the `firedancer` feature is off). -/
def IntegratedRuntime.new : IntegratedRuntime :=
  { accounts := initialize_default_accounts Store.empty
    bpf_programs := fun _ => none
    compute_budget := 1400000
    max_call_depth := 4 }

def IntegratedRuntime.get_account (rt : IntegratedRuntime) (pubkey : Pubkey) :
    Option Account :=
  rt.accounts pubkey

/-- `IntegratedRuntime::get_balance`: 0 for absent accounts. -/
def IntegratedRuntime.get_balance (rt : IntegratedRuntime) (pubkey : Pubkey) : Nat :=
  ((rt.accounts pubkey).map Account.lamports).getD 0

/-- `IntegratedRuntime::fund_account` (`u64` add modelled with a wrap). -/
def IntegratedRuntime.fund_account (rt : IntegratedRuntime) (pubkey : Pubkey)
    (lamports : Nat) : IntegratedRuntime :=
  let account := (rt.accounts pubkey).getD (Account.new 0 [] SYSTEM_PROGRAM_ID)
  let account := { account with lamports := (account.lamports + lamports) % U64MOD }
  { rt with accounts := rt.accounts.insert pubkey account }

/-- The validation/creation loop over `account_indices` in
`IntegratedRuntime::execute_instruction`: each index is checked against
`pubkeys.len() as u8` (a truncating `u8` cast), then a default account is
inserted for any missing key.  Returns the possibly-extended store and
whether every index was valid; creations before a failing index persist. -/
def ensureAccounts (store : Store) (pubkeys : List Pubkey) :
    List Nat → Store × Bool
  | [] => (store, true)
  | index :: rest =>
    if pubkeys.length % 256 ≤ index then (store, false)
    else
      let pk := pubkeys.getD index []
      let store := if store.contains pk then store
                   else store.insert pk (Account.new 0 [] SYSTEM_PROGRAM_ID)
      ensureAccounts store pubkeys rest

/-- The final write-back loop: `accounts.insert(pubkeys[index], infos[i])`
in instruction order, so a repeated key keeps the last slot's value. -/
def writeBack (store : Store) (pubkeys : List Pubkey) :
    List Nat → List Account → Store
  | index :: is, info :: infos =>
    writeBack (store.insert (pubkeys.getD index []) info) pubkeys is infos
  | _, _ => store

/-- `IntegratedRuntime::execute_bpf_program`: load the demo program when the
id is unknown, run the VM, charge 5000 units.  The VM makes no account
mutations. -/
def IntegratedRuntime.execute_bpf_program (rt : IntegratedRuntime)
    (program_id : Pubkey) (instruction_data : List Nat)
    (_account_keys : List Pubkey) (account_infos : List Account)
    (context : ExecutionContext) :
    IntegratedRuntime × Except TerminatorError (List Account × ExecutionContext) :=
  let loadStep : Except TerminatorError ProgramCache :=
    if (rt.bpf_programs program_id).isSome then .ok rt.bpf_programs
    else RealBpfVm.load_program rt.bpf_programs program_id create_simple_bpf_program
  match loadStep with
  | .error e => (rt, .error e)
  | .ok programs =>
    let rt := { rt with bpf_programs := programs }
    let context := context.log "BPF execution"
    match RealBpfVm.execute_program programs program_id instruction_data account_infos with
    | .error e => (rt, .error e)
    | .ok _result =>
      let context := context.log "BPF execution completed"
      let context := (context.consume_compute_units 5000).2
      (rt, .ok (account_infos, context))

/-- `IntegratedRuntime::execute_instruction`: validate/create referenced
accounts, copy them into a scratch array, dispatch on the program id, and
commit the scratch array back on success.  The mutated runtime is returned
in both the success and the error case. -/
def IntegratedRuntime.execute_instruction (rt : IntegratedRuntime)
    (program_id : Pubkey) (instruction_data : List Nat)
    (pubkeys : List Pubkey) (account_indices : List Nat)
    (context : ExecutionContext) :
    IntegratedRuntime × Except TerminatorError ExecutionContext :=
  match ensureAccounts rt.accounts pubkeys account_indices with
  | (store, false) =>
    ({ rt with accounts := store },
     .error (.TransactionExecutionFailed "Invalid account index"))
  | (store, true) =>
    let account_infos := account_indices.map fun index =>
      (store (pubkeys.getD index [])).getD (Account.new 0 [] SYSTEM_PROGRAM_ID)
    if program_id = SYSTEM_PROGRAM_ID then
      match SystemProgram.process_instruction instruction_data pubkeys account_infos context with
      | .error e => ({ rt with accounts := store }, .error e)
      | .ok (account_infos, context) =>
        ({ rt with accounts := writeBack store pubkeys account_indices account_infos },
         .ok context)
    else
      match IntegratedRuntime.execute_bpf_program { rt with accounts := store }
          program_id instruction_data pubkeys account_infos context with
      | (rt, .error e) => (rt, .error e)
      | (rt, .ok (account_infos, context)) =>
        ({ rt with accounts := writeBack rt.accounts pubkeys account_indices account_infos },
         .ok context)

/-- The per-instruction loop of `execute_solana_transaction_parsed`:
charge the 1000-unit overhead, bound-check `program_id_index` against
`account_keys.len() as u8`, and run the instruction; any error propagates
(`?`), keeping the store mutations made so far. -/
def execInstrLoop (rt : IntegratedRuntime) (account_keys : List Pubkey) :
    List CompiledInstruction → ExecutionContext →
    IntegratedRuntime × Except TerminatorError ExecutionContext
  | [], context => (rt, .ok context)
  | instruction :: rest, context =>
    match context.consume_compute_units 1000 with
    | (false, _) =>
      (rt, .error (.TransactionExecutionFailed "Compute budget exceeded"))
    | (true, context) =>
      if account_keys.length % 256 ≤ instruction.program_id_index then
        (rt, .error (.TransactionExecutionFailed "Invalid program_id_index"))
      else
        let program_id := account_keys.getD instruction.program_id_index []
        match rt.execute_instruction program_id instruction.data account_keys
            instruction.accounts context with
        | (rt, .error e) => (rt, .error e)
        | (rt, .ok context) => execInstrLoop rt account_keys rest context

/-- `IntegratedRuntime::execute_solana_transaction_parsed` (the `firedancer`
signature-verification block is compiled out).  On failure the `?` operator
returns the error itself: no `TransactionResult` is produced. -/
def IntegratedRuntime.execute_solana_transaction_parsed (rt : IntegratedRuntime)
    (tx : SolanaTransaction) :
    IntegratedRuntime × Except TerminatorError TransactionResult :=
  let context := ExecutionContext.new rt.compute_budget
  match execInstrLoop rt tx.message.account_keys tx.message.instructions context with
  | (rt, .error e) => (rt, .error e)
  | (rt, .ok context) =>
    (rt, .ok
      { success := true
        compute_units_consumed := rt.compute_budget - context.compute_units_remaining
        logs := context.log_messages
        error := none })

/-! ## Wire-format decoding (`src/solana_format.rs`)

`parse_transaction` first attempts bincode deserialization of the whole
payload and only falls back to the manual structural parser when that
fails; `parse_message_manual` likewise retries bincode on the message
bytes first.  bincode (1.x defaults: fixed-width little-endian integers,
`u64` sequence length prefixes, trailing bytes permitted) is embedded for
the concrete derived `Deserialize` impls. -/

/-- bincode `serde_bytes` fixed array: `u64` length prefix that must equal
`n`, then the raw bytes. -/
def bincReadByteArray (n : Nat) (data : List Nat) : Option (List Nat × List Nat) := do
  let (len, r) ← readU64 data
  if len = n then readBytesN n r else none

/-- bincode sequence body: `count` elements read in order. -/
def bincReadVec {α : Type} (readElem : List Nat → Option (α × List Nat)) :
    Nat → List Nat → Option (List α × List Nat)
  | 0, data => some ([], data)
  | n + 1, data => do
    let (x, r) ← readElem data
    let (xs, r') ← bincReadVec readElem n r
    some (x :: xs, r')

/-- bincode `CompiledInstruction`: `u8` index, `Vec<u8>` accounts, `Vec<u8>` data. -/
def bincReadInstruction (data : List Nat) : Option (CompiledInstruction × List Nat) := do
  let (pidx, r) ← readU8 data
  let (alen, r) ← readU64 r
  let (accounts, r) ← readBytesN alen r
  let (dlen, r) ← readU64 r
  let (idata, r) ← readBytesN dlen r
  some ({ program_id_index := pidx, accounts := accounts, data := idata }, r)

/-- bincode `SolanaMessage`. -/
def bincDeserializeMessage (data : List Nat) : Option (SolanaMessage × List Nat) := do
  let (h1, r) ← readU8 data
  let (h2, r) ← readU8 r
  let (h3, r) ← readU8 r
  let (nkeys, r) ← readU64 r
  let (keys, r) ← bincReadVec (bincReadByteArray 32) nkeys r
  let (blockhash, r) ← bincReadByteArray 32 r
  let (ninstr, r) ← readU64 r
  let (instrs, r) ← bincReadVec bincReadInstruction ninstr r
  some ({ header :=
            { num_required_signatures := h1
              num_readonly_signed_accounts := h2
              num_readonly_unsigned_accounts := h3 }
          account_keys := keys
          recent_blockhash := blockhash
          instructions := instrs }, r)

/-- bincode `SolanaTransaction`; bincode's plain `deserialize` permits
trailing bytes. -/
def bincDeserializeTransaction (data : List Nat) : Option SolanaTransaction := do
  let (nsigs, r) ← readU64 data
  let (sigs, r) ← bincReadVec (bincReadByteArray 64) nsigs r
  let (msg, _) ← bincDeserializeMessage r
  some { signatures := sigs, message := msg }

/-- The signature-reading loop of `parse_transaction_manual`: `n` raw
64-byte signatures. -/
def parseSignaturesManual : Nat → List Nat → Except TerminatorError (List (List Nat) × List Nat)
  | 0, data => .ok ([], data)
  | n + 1, data =>
    match readBytesN 64 data with
    | none => .error (.SerializationError "Incomplete signature data")
    | some (sig, r) =>
      match parseSignaturesManual n r with
      | .error e => .error e
      | .ok (sigs, r') => .ok (sig :: sigs, r')

/-- The account-key loop of `parse_message_manual`: `n` raw 32-byte keys. -/
def parseKeysManual : Nat → List Nat → Except TerminatorError (List Pubkey × List Nat)
  | 0, data => .ok ([], data)
  | n + 1, data =>
    match readBytesN 32 data with
    | none => .error (.SerializationError "Incomplete account key")
    | some (key, r) =>
      match parseKeysManual n r with
      | .error e => .error e
      | .ok (keys, r') => .ok (key :: keys, r')

/-- One instruction of the manual message parser, with its
validations: `program_id_index < num_account_keys`, per-instruction
accounts count ≤ 64, every account index `< num_account_keys`, and data
length ≤ 1232 (the length is a single byte, so this guard is slack). -/
def parseCompiledInstructionManual (num_account_keys : Nat) (data : List Nat) :
    Except TerminatorError (CompiledInstruction × List Nat) :=
  match readU8 data with
  | none => .error (.SerializationError "Missing program_id_index")
  | some (pidx, r) =>
    if num_account_keys ≤ pidx then
      .error (.SerializationError "Invalid program_id_index")
    else match readU8 r with
    | none => .error (.SerializationError "Missing accounts count")
    | some (acount, r) =>
      if 64 < acount then .error (.SerializationError "Too many accounts")
      else match readBytesN acount r with
      | none => .error (.SerializationError "Incomplete accounts")
      | some (accounts, r) =>
        if ¬ accounts.all (fun a => a < num_account_keys) then
          .error (.SerializationError "Invalid account index")
        else match readU8 r with
        | none => .error (.SerializationError "Missing data length")
        | some (dlen, r) =>
          if 1232 < dlen then .error (.SerializationError "Instruction data too large")
          else match readBytesN dlen r with
          | none => .error (.SerializationError "Incomplete instruction data")
          | some (idata, r) =>
            .ok ({ program_id_index := pidx, accounts := accounts, data := idata }, r)

/-- The instruction loop of the manual message parser. -/
def parseInstructionsManual (num_account_keys : Nat) :
    Nat → List Nat → Except TerminatorError (List CompiledInstruction × List Nat)
  | 0, data => .ok ([], data)
  | n + 1, data =>
    match parseCompiledInstructionManual num_account_keys data with
    | .error e => .error e
    | .ok (instr, r) =>
      match parseInstructionsManual num_account_keys n r with
      | .error e => .error e
      | .ok (instrs, r') => .ok (instr :: instrs, r')

/-- The fully-manual branch of `parse_message_manual` (runs only when the
bincode attempt on the message bytes fails): header bounds ≤ 16,
account-key count ≤ 64, instruction count ≤ 64, and the per-instruction
validations of `parseCompiledInstructionManual`. -/
def parseMessageManualFallback (data : List Nat) : Except TerminatorError SolanaMessage :=
  match readBytesN 3 data with
  | none => .error (.SerializationError "Incomplete message header")
  | some (hbytes, r) =>
    let header : MessageHeader :=
      { num_required_signatures := hbytes.getD 0 0
        num_readonly_signed_accounts := hbytes.getD 1 0
        num_readonly_unsigned_accounts := hbytes.getD 2 0 }
    if 16 < header.num_required_signatures ∨
       16 < header.num_readonly_signed_accounts ∨
       16 < header.num_readonly_unsigned_accounts then
      .error (.SerializationError "Invalid header values")
    else match readU8 r with
    | none => .error (.SerializationError "Missing account keys count")
    | some (nkeys, r) =>
      if 64 < nkeys then .error (.SerializationError "Too many account keys")
      else match parseKeysManual nkeys r with
      | .error e => .error e
      | .ok (keys, r) =>
        match readBytesN 32 r with
        | none => .error (.SerializationError "Incomplete recent blockhash")
        | some (blockhash, r) =>
          match readU8 r with
          | none => .error (.SerializationError "Missing instructions count")
          | some (ninstr, r) =>
            if 64 < ninstr then .error (.SerializationError "Too many instructions")
            else match parseInstructionsManual nkeys ninstr r with
            | .error e => .error e
            | .ok (instrs, _) =>
              .ok { header := header
                    account_keys := keys
                    recent_blockhash := blockhash
                    instructions := instrs }

/-- `parse_message_manual`: bincode first, manual fallback second. -/
def parse_message_manual (data : List Nat) : Except TerminatorError SolanaMessage :=
  match bincDeserializeMessage data with
  | some (message, _) => .ok message
  | none => parseMessageManualFallback data

/-- `parse_transaction_manual`: signature count byte, signatures, an
optional compact-u16 skip when the next byte has its high bit set, then
the message. -/
def parse_transaction_manual (data : List Nat) : Except TerminatorError SolanaTransaction :=
  match data with
  | [] => .error (.SerializationError "Empty transaction data")
  | num_signatures :: rest =>
    match parseSignaturesManual num_signatures rest with
    | .error e => .error e
    | .ok (signatures, r) =>
      let msgBytes : Except TerminatorError (List Nat) :=
        match r with
        | b :: r2 =>
          if 0x80 ≤ b then
            if b < 0x80 then .ok r2  -- dead branch in the source (single-byte skip)
            else match r2 with
              | _ :: r3 => .ok r3   -- two-byte compact encoding skipped
              | [] => .error (.SerializationError "Incomplete compact encoding")
          else .ok (b :: r2)
        | [] => .ok []
      match msgBytes with
      | .error e => .error e
      | .ok mb =>
        match parse_message_manual mb with
        | .error e => .error e
        | .ok message => .ok { signatures := signatures, message := message }

/-- `SolanaTransactionParser::parse_transaction`: direct bincode
deserialization first, manual parsing as the fallback. -/
def parse_transaction (data : List Nat) : Except TerminatorError SolanaTransaction :=
  match bincDeserializeTransaction data with
  | some tx => .ok tx
  | none => parse_transaction_manual data

/-- The structural bounds of spec §4.1 on a decoded message. -/
def msgWithinBounds (m : SolanaMessage) : Prop :=
  m.header.num_required_signatures ≤ 16 ∧
  m.header.num_readonly_signed_accounts ≤ 16 ∧
  m.header.num_readonly_unsigned_accounts ≤ 16 ∧
  m.account_keys.length ≤ 64 ∧
  m.instructions.length ≤ 64 ∧
  ∀ ins ∈ m.instructions,
    ins.data.length ≤ 1232 ∧
    ins.program_id_index < m.account_keys.length ∧
    ∀ a ∈ ins.accounts, a < m.account_keys.length

instance (m : SolanaMessage) : Decidable (msgWithinBounds m) := by
  unfold msgWithinBounds; infer_instance

/-! ## V0 lookup resolution (`v0_to_legacy_message`) -/

structure MessageAddressTableLookup where
  account_key : Pubkey
  writable_indexes : List Nat
  readonly_indexes : List Nat
deriving DecidableEq, Repr

structure V0Message where
  header : MessageHeader
  account_keys : List Pubkey
  recent_blockhash : List Nat
  instructions : List CompiledInstruction
  address_table_lookups : List MessageAddressTableLookup
deriving DecidableEq, Repr

/-- `SolanaPubkey::new_unique` returns `sha256(SystemTime::now().nanos)`:
each call depends on the current system time, not on any argument.  Its
successive results are modelled as an external supply `fresh : Nat → Pubkey`
consumed in call order. -/
def resolveLookupPlaceholders (fresh : Nat → Pubkey) :
    Nat → List MessageAddressTableLookup → List Pubkey
  | _, [] => []
  | counter, lookup :: rest =>
    let n := lookup.writable_indexes.length + lookup.readonly_indexes.length
    (List.range n).map (fun i => fresh (counter + i)) ++
      resolveLookupPlaceholders fresh (counter + n) rest

/-- `SolanaTransactionParser::v0_to_legacy_message`: appends one
`new_unique()` placeholder per writable index and then per readonly index
of each lookup; instructions are passed through unchanged. -/
def v0_to_legacy_message (fresh : Nat → Pubkey) (m : V0Message) : SolanaMessage :=
  { header := m.header
    account_keys := m.account_keys ++ resolveLookupPlaceholders fresh 0 m.address_table_lookups
    recent_blockhash := m.recent_blockhash
    instructions := m.instructions }

/-! ## Concrete inputs used by individual claims -/

/-- C1: a CreateAccount whose target account already holds 5 lamports. -/
def c1CexAccounts : List Account :=
  [Account.new 100 [] SYSTEM_PROGRAM_ID, Account.new 5 [] SYSTEM_PROGRAM_ID]

/-- C2: the spec's simple-transfer scenario transaction. -/
def c2Tx : SolanaTransaction :=
  create_transfer_transaction (List.replicate 32 1) (List.replicate 32 2)
    1000000 (List.replicate 32 0)

def c2Run : IntegratedRuntime × Except TerminatorError TransactionResult :=
  IntegratedRuntime.new.execute_solana_transaction_parsed c2Tx

/-- C6: a transfer whose two account slots both reference `[0x01; 32]`. -/
def c6SelfTransferTx : SolanaTransaction :=
  { signatures := [List.replicate 64 0]
    message :=
      { header :=
          { num_required_signatures := 1
            num_readonly_signed_accounts := 0
            num_readonly_unsigned_accounts := 1 }
        account_keys := [List.replicate 32 1, SYSTEM_PROGRAM_ID]
        recent_blockhash := List.replicate 32 0
        instructions := [{ program_id_index := 1, accounts := [0, 0],
                           data := 2 :: u64LEBytes 1000 }] } }

def c6Run : IntegratedRuntime × Except TerminatorError TransactionResult :=
  IntegratedRuntime.new.execute_solana_transaction_parsed c6SelfTransferTx

/-- C7: bincode bytes of a transaction whose header claims 17 required
signatures (0 signatures, 0 keys, 0 instructions, zero blockhash). -/
def c7CexBytes : List Nat :=
  List.replicate 8 0 ++ [17, 0, 0] ++ List.replicate 8 0 ++
    (32 :: List.replicate 7 0) ++ List.replicate 32 0 ++ List.replicate 8 0

/-- C8: first instruction transfers 1000 from `[0x01;32]` to `[0x02;32]`,
the second asks for more than the remaining balance. -/
def c8FailTx : SolanaTransaction :=
  { signatures := [List.replicate 64 0]
    message :=
      { header :=
          { num_required_signatures := 1
            num_readonly_signed_accounts := 0
            num_readonly_unsigned_accounts := 1 }
        account_keys := [List.replicate 32 1, List.replicate 32 2, SYSTEM_PROGRAM_ID]
        recent_blockhash := List.replicate 32 0
        instructions :=
          [{ program_id_index := 2, accounts := [0, 1], data := 2 :: u64LEBytes 1000 },
           { program_id_index := 2, accounts := [0, 1], data := 2 :: u64LEBytes 20000000000 }] } }

def c8Run : IntegratedRuntime × Except TerminatorError TransactionResult :=
  IntegratedRuntime.new.execute_solana_transaction_parsed c8FailTx

/-- C8 witness input: a transaction with no instructions at all. -/
def c8EmptyTx : SolanaTransaction :=
  { signatures := []
    message :=
      { header :=
          { num_required_signatures := 0
            num_readonly_signed_accounts := 0
            num_readonly_unsigned_accounts := 0 }
        account_keys := []
        recent_blockhash := List.replicate 32 0
        instructions := [] } }

/-- Decidable equality for `Except` results, so concrete runs can be
settled by `decide`. -/
instance instDecidableEqExcept {e a : Type} [DecidableEq e] [DecidableEq a] :
    DecidableEq (Except e a) := fun x y =>
  match x, y with
  | .error e1, .error e2 =>
    if h : e1 = e2 then .isTrue (by rw [h]) else .isFalse (by simp [h])
  | .ok v1, .ok v2 =>
    if h : v1 = v2 then .isTrue (by rw [h]) else .isFalse (by simp [h])
  | .error _, .ok _ => .isFalse (by simp)
  | .ok _, .error _ => .isFalse (by simp)

/-- C3: a system transfer instruction asking for more than the funder's
balance, run through the instruction dispatcher. -/
def c3FailRun : IntegratedRuntime × Except TerminatorError ExecutionContext :=
  IntegratedRuntime.new.execute_instruction SYSTEM_PROGRAM_ID (2 :: u64LEBytes 20000000000)
    [List.replicate 32 1, List.replicate 32 2] [0, 1] (ExecutionContext.new 1400000)

/-- C7: manual-parser bytes of a minimal legal message (header `1,0,1`,
one key, zero blockhash, no instructions). -/
def c7WitnessBytes : List Nat :=
  [1, 0, 1] ++ [1] ++ List.replicate 32 5 ++ List.replicate 32 0 ++ [0]

/-- C9: one lookup with a single writable index. -/
def c9V0Message : V0Message :=
  { header :=
      { num_required_signatures := 1
        num_readonly_signed_accounts := 0
        num_readonly_unsigned_accounts := 0 }
    account_keys := [List.replicate 32 1]
    recent_blockhash := List.replicate 32 0
    instructions := []
    address_table_lookups :=
      [{ account_key := List.replicate 32 170
         writable_indexes := [0]
         readonly_indexes := [] }] }

/-! ## Theorems -/

/-- The account-creation loop never changes any balance: missing keys are
inserted with 0 lamports, matching the previous default balance of 0. -/
theorem ensureAccounts_balance :
    ∀ (idxs : List Nat) (pubkeys : List Pubkey) (store store' : Store) (b : Bool),
      ensureAccounts store pubkeys idxs = (store', b) →
      ∀ k, ((store' k).map Account.lamports).getD 0 = ((store k).map Account.lamports).getD 0 := by
  intro idxs
  induction idxs with
  | nil =>
    intro pubkeys store store' b h k
    simp only [ensureAccounts, Prod.mk.injEq] at h
    rw [← h.1]
  | cons i rest ih =>
    intro pubkeys store store' b h k
    simp only [ensureAccounts] at h
    split at h
    · simp only [Prod.mk.injEq] at h
      rw [← h.1]
    · have step := ih pubkeys _ store' b h k
      rw [step]
      by_cases hc : store.contains (pubkeys.getD i []) = true
      · rw [if_pos hc]
      · rw [if_neg hc]
        simp only [Store.insert]
        by_cases hk : k = pubkeys.getD i []
        · rw [if_pos hk, hk]
          have hnone : store (pubkeys.getD i []) = none := by
            rcases hv : store (pubkeys.getD i []) with _ | a
            · rfl
            · exact absurd (by simp only [Store.contains]; rw [hv]; rfl) hc
          rw [hnone]
          simp [Account.new]
        · rw [if_neg hk]

/-- The BPF adapter never touches the account store (it only mutates the
program cache). -/
theorem execute_bpf_program_accounts (rt : IntegratedRuntime) (pid : Pubkey)
    (idata : List Nat) (keys : List Pubkey) (infos : List Account) (ctx : ExecutionContext) :
    (rt.execute_bpf_program pid idata keys infos ctx).1.accounts = rt.accounts := by
  simp only [IntegratedRuntime.execute_bpf_program]
  split
  · rfl
  · split
    · rfl
    · rfl

/-- C1 (amended): every successful System instruction preserves the sum of
lamports over its account slots, provided the Transfer recipient does not
overflow u64 and the CreateAccount target held zero lamports beforehand
(`create_account` overwrites rather than adds the target balance). -/
theorem c1_lamport_conservation_amended :
    (∀ (accts : List Account) (lamports : Nat) (ctx accts' ctx'),
        SystemProgram.transfer accts lamports ctx = .ok (accts', ctx') →
        (accts.getD 1 default).lamports + lamports < U64MOD →
        sumLamports accts' = sumLamports accts)
    ∧
    (∀ (keys : List Pubkey) (accts : List Account) (lamports : Nat)
        (seed : List Nat) (fo : Pubkey) (ctx accts' ctx'),
        SystemProgram.transfer_with_seed keys accts lamports seed fo ctx = .ok (accts', ctx') →
        (accts.getD 1 default).lamports + lamports < U64MOD →
        sumLamports accts' = sumLamports accts)
    ∧
    (∀ (keys : List Pubkey) (accts : List Account) (lamports space : Nat)
        (owner : Pubkey) (ctx accts' ctx'),
        SystemProgram.create_account keys accts lamports space owner ctx = .ok (accts', ctx') →
        (accts.getD 1 default).lamports = 0 →
        sumLamports accts' = sumLamports accts)
    ∧
    (∀ (keys : List Pubkey) (accts : List Account) (base : Pubkey) (seed : List Nat)
        (lamports space : Nat) (owner : Pubkey) (ctx accts' ctx'),
        SystemProgram.create_account_with_seed keys accts base seed lamports space owner ctx = .ok (accts', ctx') →
        (accts.getD 1 default).lamports = 0 →
        sumLamports accts' = sumLamports accts)
    ∧
    (∀ (accts : List Account) (owner : Pubkey) (ctx accts' ctx'),
        SystemProgram.assign_account accts owner ctx = .ok (accts', ctx') →
        sumLamports accts' = sumLamports accts)
    ∧
    (∀ (keys : List Pubkey) (accts : List Account) (base : Pubkey) (seed : List Nat)
        (owner : Pubkey) (ctx accts' ctx'),
        SystemProgram.assign_with_seed keys accts base seed owner ctx = .ok (accts', ctx') →
        sumLamports accts' = sumLamports accts)
    ∧
    (∀ (accts : List Account) (space : Nat) (ctx accts' ctx'),
        SystemProgram.allocate accts space ctx = .ok (accts', ctx') →
        sumLamports accts' = sumLamports accts)
    ∧
    (∀ (keys : List Pubkey) (accts : List Account) (base : Pubkey) (seed : List Nat)
        (space : Nat) (owner : Pubkey) (ctx accts' ctx'),
        SystemProgram.allocate_with_seed keys accts base seed space owner ctx = .ok (accts', ctx') →
        sumLamports accts' = sumLamports accts) := by
  have htransfer : ∀ (accts : List Account) (lamports : Nat) (ctx accts' ctx'),
      SystemProgram.transfer accts lamports ctx = .ok (accts', ctx') →
      (accts.getD 1 default).lamports + lamports < U64MOD →
      sumLamports accts' = sumLamports accts := by
    intro accts l ctx accts' ctx' h hov
    rcases accts with _ | ⟨a0, _ | ⟨a1, rest⟩⟩
    · simp [SystemProgram.transfer] at h
    · simp [SystemProgram.transfer] at h
    · simp only [SystemProgram.transfer] at h
      split at h
      · simp at h
      · rename_i hge
        simp only [Except.ok.injEq, Prod.mk.injEq] at h
        obtain ⟨h1, -⟩ := h
        subst h1
        simp only [List.getD_cons_succ, List.getD_cons_zero] at hov
        simp only [sumLamports, List.map_cons, List.sum_cons]
        rw [Nat.mod_eq_of_lt hov]
        omega
  have hcreate : ∀ (keys : List Pubkey) (accts : List Account) (lamports space : Nat)
      (owner : Pubkey) (ctx accts' ctx'),
      SystemProgram.create_account keys accts lamports space owner ctx = .ok (accts', ctx') →
      (accts.getD 1 default).lamports = 0 →
      sumLamports accts' = sumLamports accts := by
    intro keys accts l space owner ctx accts' ctx' h hz
    rcases accts with _ | ⟨a0, _ | ⟨a1, rest⟩⟩
    · simp [SystemProgram.create_account] at h
    · simp [SystemProgram.create_account] at h
    · simp only [SystemProgram.create_account] at h
      split at h
      · simp at h
      · rename_i hge
        simp only [Except.ok.injEq, Prod.mk.injEq] at h
        obtain ⟨h1, -⟩ := h
        subst h1
        simp only [List.getD_cons_succ, List.getD_cons_zero] at hz
        simp only [sumLamports, List.map_cons, List.sum_cons]
        omega
  have hassign : ∀ (accts : List Account) (owner : Pubkey) (ctx accts' ctx'),
      SystemProgram.assign_account accts owner ctx = .ok (accts', ctx') →
      sumLamports accts' = sumLamports accts := by
    intro accts owner ctx accts' ctx' h
    rcases accts with _ | ⟨a0, rest⟩
    · simp [SystemProgram.assign_account] at h
    · simp only [SystemProgram.assign_account] at h
      split at h
      · simp at h
      · simp only [Except.ok.injEq, Prod.mk.injEq] at h
        obtain ⟨h1, -⟩ := h
        subst h1
        simp [sumLamports]
  have halloc : ∀ (accts : List Account) (space : Nat) (ctx accts' ctx'),
      SystemProgram.allocate accts space ctx = .ok (accts', ctx') →
      sumLamports accts' = sumLamports accts := by
    intro accts space ctx accts' ctx' h
    rcases accts with _ | ⟨a0, rest⟩
    · simp [SystemProgram.allocate] at h
    · simp only [SystemProgram.allocate] at h
      split at h
      · simp at h
      · simp only [Except.ok.injEq, Prod.mk.injEq] at h
        obtain ⟨h1, -⟩ := h
        subst h1
        simp [sumLamports]
  refine ⟨htransfer, ?_, hcreate, ?_, hassign, ?_, halloc, ?_⟩
  · intro keys accts l seed fo ctx accts' ctx' h hov
    exact htransfer accts l ctx accts' ctx' h hov
  · intro keys accts base seed l space owner ctx accts' ctx' h hz
    exact hcreate [] accts l space owner ctx accts' ctx' h hz
  · intro keys accts base seed owner ctx accts' ctx' h
    exact hassign accts owner ctx accts' ctx' h
  · intro keys accts base seed space owner ctx accts' ctx' h
    exact halloc accts space ctx accts' ctx' h

/-- C1 (counterexample): a successful CreateAccount on a target already
holding 5 lamports changes the slot sum from 105 to 100 — the original
claim of unconditional conservation is false. -/
theorem c1_counterexample_create_account_destroys_lamports :
    ((SystemProgram.create_account [] c1CexAccounts 10 0 (List.replicate 32 7)
        (ExecutionContext.new 1400000)).toOption.map fun p => sumLamports p.1) = some 100
    ∧ sumLamports c1CexAccounts = 105 := by
  constructor <;> decide

/-- C1 (witness): the amended conservation theorem applied to a concrete
successful transfer of 10 lamports. -/
theorem c1_witness :
    sumLamports [Account.new 90 [] SYSTEM_PROGRAM_ID,
      { Account.new 5 [] SYSTEM_PROGRAM_ID with lamports := 15 }] =
    sumLamports [Account.new 100 [] SYSTEM_PROGRAM_ID, Account.new 5 [] SYSTEM_PROGRAM_ID] :=
  c1_lamport_conservation_amended.1
    [Account.new 100 [] SYSTEM_PROGRAM_ID, Account.new 5 [] SYSTEM_PROGRAM_ID] 10
    (ExecutionContext.new 1400000)
    [Account.new 90 [] SYSTEM_PROGRAM_ID,
      { Account.new 5 [] SYSTEM_PROGRAM_ID with lamports := 15 }]
    ⟨1399800, ["Transferring lamports"]⟩ (by decide) (by decide)

/-- C2: from the default store (`[0x01;32]` holding 10_000_000_000,
`[0x02;32]` absent) the legacy 1_000_000-lamport transfer built by
`create_transfer_transaction` succeeds with 1200 compute units consumed
and leaves balances 9_999_000_000 and 1_000_000. -/
theorem c2_simple_transfer_scenario :
    (c2Run.2.toOption.map fun r => (r.success, r.compute_units_consumed)) = some (true, 1200)
    ∧ c2Run.1.get_balance (List.replicate 32 1) = 9999000000
    ∧ c2Run.1.get_balance (List.replicate 32 2) = 1000000 := by
  refine ⟨?_, ?_, ?_⟩ <;> decide

/-- C3: Transfer and CreateAccount fail with `InsufficientFunds` exactly
when the funder holds strictly fewer lamports than requested, and any
instruction error leaves every account balance unchanged. -/
theorem c3_insufficient_funds_iff :
    (∀ (a0 a1 : Account) (rest : List Account) (lamports : Nat) (ctx : ExecutionContext),
        (SystemProgram.transfer (a0 :: a1 :: rest) lamports ctx = .error .InsufficientFunds ↔
          a0.lamports < lamports))
    ∧
    (∀ (keys : List Pubkey) (a0 a1 : Account) (rest : List Account) (lamports space : Nat)
        (owner : Pubkey) (ctx : ExecutionContext),
        (SystemProgram.create_account keys (a0 :: a1 :: rest) lamports space owner ctx =
            .error .InsufficientFunds ↔ a0.lamports < lamports))
    ∧
    (∀ (rt : IntegratedRuntime) (pid : Pubkey) (idata : List Nat) (keys : List Pubkey)
        (idxs : List Nat) (ctx : ExecutionContext) (rt' : IntegratedRuntime) (e : TerminatorError),
        rt.execute_instruction pid idata keys idxs ctx = (rt', .error e) →
        ∀ k, rt'.get_balance k = rt.get_balance k) := by
  refine ⟨?_, ?_, ?_⟩
  · intro a0 a1 rest lamports ctx
    simp only [SystemProgram.transfer]
    split
    · rename_i hlt
      simp [hlt]
    · rename_i hge
      simp [hge]
  · intro keys a0 a1 rest lamports space owner ctx
    simp only [SystemProgram.create_account]
    split
    · rename_i hlt
      simp [hlt]
    · rename_i hge
      simp [hge]
  · intro rt pid idata keys idxs ctx rt' e h k
    simp only [IntegratedRuntime.execute_instruction] at h
    rcases hE : ensureAccounts rt.accounts keys idxs with ⟨store, b⟩
    rw [hE] at h
    have hbal := ensureAccounts_balance idxs keys rt.accounts store b hE
    cases b
    · simp only [Prod.mk.injEq] at h
      obtain ⟨h1, -⟩ := h
      rw [← h1]
      simp only [IntegratedRuntime.get_balance]
      exact hbal k
    · simp only at h
      split at h
      · -- system program branch
        split at h
        · simp only [Prod.mk.injEq] at h
          obtain ⟨h1, -⟩ := h
          rw [← h1]
          simp only [IntegratedRuntime.get_balance]
          exact hbal k
        · simp at h
      · -- bpf branch
        rename_i hpid
        rcases hB : IntegratedRuntime.execute_bpf_program { rt with accounts := store } pid idata keys
            (idxs.map fun index => (store (keys.getD index [])).getD (Account.new 0 [] SYSTEM_PROGRAM_ID))
            ctx with ⟨rt2, res⟩
        rw [hB] at h
        cases res with
        | error e2 =>
          simp only [Prod.mk.injEq] at h
          obtain ⟨h1, -⟩ := h
          have hacc : rt2.accounts = store := by
            have := execute_bpf_program_accounts { rt with accounts := store } pid idata keys
              (idxs.map fun index => (store (keys.getD index [])).getD (Account.new 0 [] SYSTEM_PROGRAM_ID)) ctx
            rw [hB] at this
            exact this
          rw [← h1]
          simp only [IntegratedRuntime.get_balance, hacc]
          exact hbal k
        | ok p =>
          rcases p with ⟨infos2, ctx2⟩
          simp at h

/-- C3 (witness): the iff at a 500-lamport funder asked for 1000, and
balance preservation for a concrete failing dispatched transfer. -/
theorem c3_witness :
    (SystemProgram.transfer [Account.new 500 [] SYSTEM_PROGRAM_ID, Account.new 0 [] SYSTEM_PROGRAM_ID]
        1000 (ExecutionContext.new 1400000) = .error .InsufficientFunds ↔
      (Account.new 500 [] SYSTEM_PROGRAM_ID).lamports < 1000)
    ∧ c3FailRun.1.get_balance (List.replicate 32 1) =
        IntegratedRuntime.new.get_balance (List.replicate 32 1) :=
  ⟨c3_insufficient_funds_iff.1 (Account.new 500 [] SYSTEM_PROGRAM_ID)
      (Account.new 0 [] SYSTEM_PROGRAM_ID) [] 1000 (ExecutionContext.new 1400000),
   c3_insufficient_funds_iff.2.2 IntegratedRuntime.new SYSTEM_PROGRAM_ID
      (2 :: u64LEBytes 20000000000) [List.replicate 32 1, List.replicate 32 2] [0, 1]
      (ExecutionContext.new 1400000) c3FailRun.1 .InsufficientFunds
      (by rw [show (Except.error TerminatorError.InsufficientFunds :
            Except TerminatorError ExecutionContext) = c3FailRun.2 from by decide]
          exact rfl)
      (List.replicate 32 1)⟩

/-- C4 (amended): on success and with the charge covered by the remaining
budget, CreateAccount consumes 1000 units, Assign 500, Transfer 200, and
Allocate `space / 100` (not `max(200, space/100)`). -/
theorem c4_compute_costs_amended :
    (∀ (keys : List Pubkey) (accts : List Account) (lamports space : Nat) (owner : Pubkey)
        (ctx : ExecutionContext) (accts' : List Account) (ctx' : ExecutionContext),
        SystemProgram.create_account keys accts lamports space owner ctx = .ok (accts', ctx') →
        1000 ≤ ctx.compute_units_remaining →
        ctx.compute_units_remaining - ctx'.compute_units_remaining = 1000)
    ∧
    (∀ (accts : List Account) (owner : Pubkey) (ctx : ExecutionContext)
        (accts' : List Account) (ctx' : ExecutionContext),
        SystemProgram.assign_account accts owner ctx = .ok (accts', ctx') →
        500 ≤ ctx.compute_units_remaining →
        ctx.compute_units_remaining - ctx'.compute_units_remaining = 500)
    ∧
    (∀ (accts : List Account) (lamports : Nat) (ctx : ExecutionContext)
        (accts' : List Account) (ctx' : ExecutionContext),
        SystemProgram.transfer accts lamports ctx = .ok (accts', ctx') →
        200 ≤ ctx.compute_units_remaining →
        ctx.compute_units_remaining - ctx'.compute_units_remaining = 200)
    ∧
    (∀ (accts : List Account) (space : Nat) (ctx : ExecutionContext)
        (accts' : List Account) (ctx' : ExecutionContext),
        SystemProgram.allocate accts space ctx = .ok (accts', ctx') →
        space / 100 ≤ ctx.compute_units_remaining →
        ctx.compute_units_remaining - ctx'.compute_units_remaining = space / 100) := by
  refine ⟨?_, ?_, ?_, ?_⟩
  · intro keys accts lamports space owner ctx accts' ctx' h hbud
    rcases accts with _ | ⟨a0, _ | ⟨a1, rest⟩⟩
    · simp [SystemProgram.create_account] at h
    · simp [SystemProgram.create_account] at h
    · simp only [SystemProgram.create_account] at h
      split at h
      · simp at h
      · simp only [Except.ok.injEq, Prod.mk.injEq] at h
        obtain ⟨-, h2⟩ := h
        subst h2
        simp only [ExecutionContext.consume_compute_units, ExecutionContext.log]
        split
        · rename_i hlt; exact absurd hbud (by simpa using hlt)
        · simp; omega
  · intro accts owner ctx accts' ctx' h hbud
    rcases accts with _ | ⟨a0, rest⟩
    · simp [SystemProgram.assign_account] at h
    · simp only [SystemProgram.assign_account] at h
      split at h
      · simp at h
      · simp only [Except.ok.injEq, Prod.mk.injEq] at h
        obtain ⟨-, h2⟩ := h
        subst h2
        simp only [ExecutionContext.consume_compute_units, ExecutionContext.log]
        split
        · rename_i hlt; exact absurd hbud (by simpa using hlt)
        · simp; omega
  · intro accts lamports ctx accts' ctx' h hbud
    rcases accts with _ | ⟨a0, _ | ⟨a1, rest⟩⟩
    · simp [SystemProgram.transfer] at h
    · simp [SystemProgram.transfer] at h
    · simp only [SystemProgram.transfer] at h
      split at h
      · simp at h
      · simp only [Except.ok.injEq, Prod.mk.injEq] at h
        obtain ⟨-, h2⟩ := h
        subst h2
        simp only [ExecutionContext.consume_compute_units, ExecutionContext.log]
        split
        · rename_i hlt; exact absurd hbud (by simpa using hlt)
        · simp; omega
  · intro accts space ctx accts' ctx' h hbud
    rcases accts with _ | ⟨a0, rest⟩
    · simp [SystemProgram.allocate] at h
    · simp only [SystemProgram.allocate] at h
      split at h
      · simp at h
      · simp only [Except.ok.injEq, Prod.mk.injEq] at h
        obtain ⟨-, h2⟩ := h
        subst h2
        simp only [ExecutionContext.consume_compute_units, ExecutionContext.log]
        split
        · rename_i hlt; exact absurd hbud (by simpa using hlt)
        · simp; omega

/-- C4 (counterexample): a successful Allocate of space 0 consumes 0
compute units, not the `max(200, space/100) = 200` the claim states. -/
theorem c4_counterexample_allocate_cost :
    ((SystemProgram.allocate [Account.new 0 [] SYSTEM_PROGRAM_ID] 0
        (ExecutionContext.new 1400000)).toOption.map fun p =>
          1400000 - p.2.compute_units_remaining) = some 0
    ∧ max 200 (0 / 100) = 200 := by
  constructor <;> decide

/-- C4 (witness): the amended cost theorem applied to a concrete transfer
consuming exactly 200 units. -/
theorem c4_witness :
    (ExecutionContext.new 1400000).compute_units_remaining -
      (⟨1399800, ["Transferring lamports"]⟩ : ExecutionContext).compute_units_remaining = 200 :=
  c4_compute_costs_amended.2.2.1
    [Account.new 100 [] SYSTEM_PROGRAM_ID, Account.new 5 [] SYSTEM_PROGRAM_ID] 10
    (ExecutionContext.new 1400000)
    [Account.new 90 [] SYSTEM_PROGRAM_ID,
      { Account.new 5 [] SYSTEM_PROGRAM_ID with lamports := 15 }]
    ⟨1399800, ["Transferring lamports"]⟩ (by decide) (by decide)

/-- C5 (amended): no size limit exists — Allocate succeeds for every
`space` on a system-owned account and CreateAccount for every `space`
with sufficient funds, and the target data becomes `space` zero bytes. -/
theorem c5_allocation_amended :
    (∀ (a0 : Account) (rest : List Account) (space : Nat) (ctx : ExecutionContext),
        a0.owner = SYSTEM_PROGRAM_ID →
        SystemProgram.allocate (a0 :: rest) space ctx =
          .ok ({ a0 with data := List.replicate space 0 } :: rest,
               ((ctx.log "Allocating bytes").consume_compute_units (space / 100)).2))
    ∧
    (∀ (keys : List Pubkey) (a0 a1 : Account) (rest : List Account) (lamports space : Nat)
        (owner : Pubkey) (ctx : ExecutionContext),
        lamports ≤ a0.lamports →
        SystemProgram.create_account keys (a0 :: a1 :: rest) lamports space owner ctx =
          .ok ({ a0 with lamports := a0.lamports - lamports } ::
               { a1 with
                 lamports := lamports
                 data := List.replicate space 0
                 owner := owner
                 executable := false
                 rent_epoch := 0 } :: rest,
               ((ctx.log "Creating account").consume_compute_units 1000).2)) := by
  constructor
  · intro a0 rest space ctx hown
    simp only [SystemProgram.allocate]
    rw [if_neg (by simp [hown])]
  · intro keys a0 a1 rest lamports space owner ctx hfund
    simp only [SystemProgram.create_account]
    rw [if_neg (by omega)]

/-- C5 (counterexample): Allocate with space one byte past 10 MiB succeeds;
no `InvalidRequest` failure exists (the error enum has no such variant). -/
theorem c5_counterexample_no_size_limit :
    (SystemProgram.allocate [Account.new 0 [] SYSTEM_PROGRAM_ID] 10485761
        (ExecutionContext.new 1400000)).toOption.isSome = true
    ∧ 10 * 1024 * 1024 < 10485761 := by
  constructor
  · rfl
  · decide

/-- C5 (witness): the amended allocation theorem at space 128. -/
theorem c5_witness :
    SystemProgram.allocate [Account.new 0 [] SYSTEM_PROGRAM_ID] 128
        (ExecutionContext.new 1400000) =
      .ok ({ Account.new 0 [] SYSTEM_PROGRAM_ID with data := List.replicate 128 0 } :: [],
           (((ExecutionContext.new 1400000).log "Allocating bytes").consume_compute_units
              (128 / 100)).2) :=
  c5_allocation_amended.1 (Account.new 0 [] SYSTEM_PROGRAM_ID) [] 128
    (ExecutionContext.new 1400000) rfl

/-- C6: a self-transfer of 1000 lamports through the runtime reports
success and consumes 1200 units, but the write-back loop keeps the
recipient slot last, so the balance grows from 10_000_000_000 to
10_000_001_000 instead of staying unchanged as the claim states. -/
theorem c6_self_transfer_mints_lamports :
    (c6Run.2.toOption.map fun r => (r.success, r.compute_units_consumed)) = some (true, 1200)
    ∧ IntegratedRuntime.new.get_balance (List.replicate 32 1) = 10000000000
    ∧ c6Run.1.get_balance (List.replicate 32 1) = 10000001000 := by
  refine ⟨?_, ?_, ?_⟩ <;> decide

/-- A successful fixed-width read returns exactly the requested bytes. -/
theorem readBytesN_length :
    ∀ (n : Nat) (data bs r : List Nat), readBytesN n data = some (bs, r) → bs.length = n := by
  intro n data bs r h
  simp only [readBytesN] at h
  split at h
  · rename_i hle
    simp only [Option.some.injEq, Prod.mk.injEq] at h
    obtain ⟨h1, -⟩ := h
    subst h1
    simp only [List.length_take]
    omega
  · simp at h

/-- The manual key loop returns exactly the announced number of keys. -/
theorem parseKeysManual_length :
    ∀ (n : Nat) (data : List Nat) (keys : List Pubkey) (r : List Nat),
      parseKeysManual n data = .ok (keys, r) → keys.length = n := by
  intro n
  induction n with
  | zero =>
    intro data keys r h
    simp only [parseKeysManual, Except.ok.injEq, Prod.mk.injEq] at h
    rw [← h.1]
    rfl
  | succ n ih =>
    intro data keys r h
    simp only [parseKeysManual] at h
    split at h
    · simp at h
    · rename_i key r1 heq
      split at h
      · simp at h
      · rename_i keys' r2 hP
        simp only [Except.ok.injEq, Prod.mk.injEq] at h
        obtain ⟨h1, -⟩ := h
        rw [← h1]
        simp [ih _ _ _ hP]

/-- Every instruction accepted by the manual instruction parser satisfies
the per-instruction bounds: data length at most 1232, program id index and
every account index below the account-key count. -/
theorem parseCompiledInstructionManual_ok :
    ∀ (k : Nat) (data : List Nat) (ins : CompiledInstruction) (r : List Nat),
      parseCompiledInstructionManual k data = .ok (ins, r) →
      ins.data.length ≤ 1232 ∧ ins.program_id_index < k ∧ ∀ a ∈ ins.accounts, a < k := by
  intro k data ins r h
  simp only [parseCompiledInstructionManual] at h
  split at h
  · simp at h
  · rename_i pidx r1 hr1
    split at h
    · simp at h
    · rename_i hpidx
      split at h
      · simp at h
      · rename_i acount r2 hr2
        split at h
        · simp at h
        · rename_i hacount
          split at h
          · simp at h
          · rename_i accounts r3 hr3
            split at h
            · simp at h
            · rename_i hall
              split at h
              · simp at h
              · rename_i dlen r4 hr4
                split at h
                · simp at h
                · rename_i hdlen
                  split at h
                  · simp at h
                  · rename_i idata r5 hr5
                    simp only [Except.ok.injEq, Prod.mk.injEq] at h
                    obtain ⟨h1, -⟩ := h
                    rw [← h1]
                    dsimp only
                    refine ⟨?_, by omega, ?_⟩
                    · have := readBytesN_length dlen r4 idata r5 hr5
                      omega
                    · intro a ha
                      have hall' := not_not.mp hall
                      have := List.all_eq_true.mp hall' a ha
                      simpa using this

/-- The manual instruction loop returns exactly the announced number of
instructions, each satisfying the per-instruction bounds. -/
theorem parseInstructionsManual_ok :
    ∀ (k n : Nat) (data : List Nat) (instrs : List CompiledInstruction) (r : List Nat),
      parseInstructionsManual k n data = .ok (instrs, r) →
      instrs.length = n ∧ ∀ ins ∈ instrs,
        ins.data.length ≤ 1232 ∧ ins.program_id_index < k ∧ ∀ a ∈ ins.accounts, a < k := by
  intro k n
  induction n with
  | zero =>
    intro data instrs r h
    simp only [parseInstructionsManual, Except.ok.injEq, Prod.mk.injEq] at h
    obtain ⟨h1, -⟩ := h
    rw [← h1]
    simp
  | succ n ih =>
    intro data instrs r h
    simp only [parseInstructionsManual] at h
    split at h
    · simp at h
    · rename_i ins0 r1 hI
      split at h
      · simp at h
      · rename_i instrs' r2 hR
        simp only [Except.ok.injEq, Prod.mk.injEq] at h
        obtain ⟨h1, -⟩ := h
        rw [← h1]
        obtain ⟨hl, hall⟩ := ih r1 instrs' r2 hR
        have hins0 := parseCompiledInstructionManual_ok k data ins0 r1 hI
        refine ⟨by simp [hl], ?_⟩
        intro ins hins
        rcases List.mem_cons.mp hins with rfl | hmem
        · exact hins0
        · exact hall ins hmem

/-- C7 (amended): every message accepted by the fully-manual structural
parser satisfies the §4.1 bounds; the bincode fast paths of
`parse_transaction` and `parse_message_manual` enforce no bounds. -/
theorem c7_manual_parser_bounds :
    ∀ (data : List Nat) (msg : SolanaMessage),
      parseMessageManualFallback data = .ok msg → msgWithinBounds msg := by
  intro data msg h
  simp only [parseMessageManualFallback] at h
  split at h
  · simp at h
  · rename_i hbytes r1 hr1
    split at h
    · simp at h
    · rename_i hhdr
      split at h
      · simp at h
      · rename_i nkeys r2 hr2
        split at h
        · simp at h
        · rename_i hnkeys
          split at h
          · simp at h
          · rename_i keys r3 hkeys
            split at h
            · simp at h
            · rename_i blockhash r4 hr4
              split at h
              · simp at h
              · rename_i ninstr r5 hr5
                split at h
                · simp at h
                · rename_i hninstr
                  split at h
                  · simp at h
                  · rename_i instrs r6 hinstr
                    simp only [Except.ok.injEq] at h
                    rw [← h]
                    push_neg at hhdr hnkeys hninstr
                    obtain ⟨hl, hbound⟩ := parseInstructionsManual_ok nkeys ninstr r5 instrs r6 hinstr
                    have hkl := parseKeysManual_length nkeys r2 keys r3 hkeys
                    simp only [msgWithinBounds]
                    refine ⟨hhdr.1, hhdr.2.1, hhdr.2.2, by omega, by omega, ?_⟩
                    intro ins hins
                    obtain ⟨hd, hp, ha⟩ := hbound ins hins
                    refine ⟨hd, by omega, ?_⟩
                    intro a haa
                    have := ha a haa
                    omega

/-- C7 (counterexample): `parse_transaction` accepts a bincode payload whose
header claims 17 required signatures, violating the §4.1 bound of 16. -/
theorem c7_counterexample_bincode_bypasses_bounds :
    ((parse_transaction c7CexBytes).toOption.map fun tx =>
        tx.message.header.num_required_signatures) = some 17
    ∧ ((parse_transaction c7CexBytes).toOption.map fun tx =>
        decide (msgWithinBounds tx.message)) = some false := by
  constructor <;> decide

/-- C7 (witness): the manual-parser bound theorem applied to concrete
minimal message bytes. -/
theorem c7_witness :
    msgWithinBounds
      { header :=
          { num_required_signatures := 1
            num_readonly_signed_accounts := 0
            num_readonly_unsigned_accounts := 1 }
        account_keys := [List.replicate 32 5]
        recent_blockhash := List.replicate 32 0
        instructions := [] } :=
  c7_manual_parser_bounds c7WitnessBytes
    { header :=
        { num_required_signatures := 1
          num_readonly_signed_accounts := 0
          num_readonly_unsigned_accounts := 1 }
      account_keys := [List.replicate 32 5]
      recent_blockhash := List.replicate 32 0
      instructions := [] } (by decide)

/-- C8 (amended): a failing transaction makes the runtime return the error
itself — every `TransactionResult` it ever returns has `success = true`
and `error = none` — while mutations of earlier committed instructions
are retained in the store. -/
theorem c8_failure_amended :
    (∀ (rt : IntegratedRuntime) (tx : SolanaTransaction) (rt' : IntegratedRuntime)
        (r : TransactionResult),
        rt.execute_solana_transaction_parsed tx = (rt', .ok r) →
        r.success = true ∧ r.error = none)
    ∧ c8Run.2 = .error .InsufficientFunds
    ∧ c8Run.1.get_balance (List.replicate 32 2) = 1000
    ∧ c8Run.1.get_balance (List.replicate 32 1) = 9999999000 := by
  refine ⟨?_, by decide, by decide, by decide⟩
  intro rt tx rt' r h
  simp only [IntegratedRuntime.execute_solana_transaction_parsed] at h
  rcases hE : execInstrLoop rt tx.message.account_keys tx.message.instructions
      (ExecutionContext.new rt.compute_budget) with ⟨rt2, res⟩
  rw [hE] at h
  cases res with
  | error e => simp at h
  | ok ctx =>
    simp only [Prod.mk.injEq, Except.ok.injEq] at h
    obtain ⟨-, h2⟩ := h
    rw [← h2]
    exact ⟨rfl, rfl⟩

/-- C8 (counterexample): the failing two-transfer transaction produces no
`TransactionResult` at all; the runtime returns `InsufficientFunds`. -/
theorem c8_counterexample_error_instead_of_result :
    c8Run.2.toOption = none ∧ c8Run.2 = .error .InsufficientFunds := by
  constructor <;> decide

/-- C8 (witness): the amended result-shape theorem applied to a concrete
empty transaction. -/
theorem c8_witness :
    ({ success := true, compute_units_consumed := 0, logs := [], error := none } :
        TransactionResult).success = true
    ∧ ({ success := true, compute_units_consumed := 0, logs := [], error := none } :
        TransactionResult).error = none :=
  c8_failure_amended.1 IntegratedRuntime.new c8EmptyTx IntegratedRuntime.new
    { success := true, compute_units_consumed := 0, logs := [], error := none } rfl

/-- C9: resolving the same v0 message under two different time-derived key
supplies yields different account-key lists, so the appended placeholders
are not a pure function of the lookup table key and entry index. -/
theorem c9_resolution_depends_on_time_supply :
    v0_to_legacy_message (fun _ => List.replicate 32 7) c9V0Message ≠
    v0_to_legacy_message (fun _ => List.replicate 32 9) c9V0Message := by
  decide

/-- C10: the freshly constructed runtime store holds the executable System
Program account (1 lamport, empty data) at the all-zero key and the test
account `[0x01;32]` with exactly 10_000_000_000 lamports. -/
theorem c10_default_accounts :
    IntegratedRuntime.new.get_account (List.replicate 32 0) =
      some { lamports := 1, data := [], owner := SYSTEM_PROGRAM_ID,
             executable := true, rent_epoch := 0 }
    ∧ IntegratedRuntime.new.get_account (List.replicate 32 1) =
      some { lamports := 10000000000, data := [], owner := SYSTEM_PROGRAM_ID,
             executable := false, rent_epoch := 0 }
    ∧ IntegratedRuntime.new.get_balance (List.replicate 32 1) = 10000000000 := by
  refine ⟨?_, ?_, ?_⟩ <;> decide

end TerminatorDancer
